import Mathlib

/-!
Verification of the s4 authenticated SQL execution gateway
(`src/s4/server.py`, `src/s4/cli.py`, `src/s4/client.py`) against its
natural-language specification.

The Python source is shallowly embedded: each relevant Python function becomes
a Lean function over explicit state, and Flask's per-request machinery
(`before_request` / view dispatch / `teardown_appcontext`) becomes an explicit
request handler producing a response, an updated persistent store, and a trace
of connection/execution events.  The external SQLite engine and the
`secrets` module are out of scope of the repository; where a claim depends on
their behaviour they are modelled from the specification's description of
their interface boundary, and marked so in their doc comments.
-/

namespace S4

/-! ## Values, Python dictionaries, and rows -/

/-- A dynamically-typed SQL cell value (the subset the modelled statements
produce: integers, text, NULL). -/
inductive SqlValue
  | int (n : Int)
  | text (s : String)
  | null
deriving DecidableEq, Repr

/-- One result row as produced by `dict_factory`: a Python dict from column
name to value, represented as an ordered association list with Python's
dict-assignment semantics. -/
abbrev Row := List (String × SqlValue)

/-- A JSON-able Python value appearing in the gateway's response dictionaries:
either a string or a list of row-records. -/
inductive PyVal
  | str (s : String)
  | rows (rs : List Row)
deriving DecidableEq, Repr

/-- A Python dict with string keys, as an ordered association list. -/
abbrev PyDict := List (String × PyVal)

/-- Python dict assignment `d[k] = v`: overwrite in place if the key exists
(keeping its position), otherwise append.  This is the semantics of a dict
comprehension over a key/value stream, so a duplicate key keeps its first
position and its last value. -/
def pyAssign {α : Type} (d : List (String × α)) (k : String) (v : α) :
    List (String × α) :=
  match d with
  | [] => [(k, v)]
  | (k', v') :: rest =>
      if k' = k then (k, v) :: rest else (k', v') :: pyAssign rest k v

/-- Python dict lookup `d.get(k)`. -/
def pyLookup {α : Type} (d : List (String × α)) (k : String) : Option α :=
  match d with
  | [] => none
  | (k', v') :: rest => if k' = k then some v' else pyLookup rest k

/-- Whether a dict carries a given key. -/
def hasKey {α : Type} (d : List (String × α)) (k : String) : Bool :=
  (pyLookup d k).isSome

/-- Embedding of `dict_factory` (server.py lines 75-84): zip the column names
of the cursor description with the raw row tuple and build a Python dict from
the pairs.  A duplicate column name therefore collides, last write wins. -/
def dict_factory (description : List String) (row : List SqlValue) : Row :=
  (List.zip description row).foldl (fun d kv => pyAssign d kv.1 kv.2) []

/-! ## The external SQL engine, modelled at its interface boundary -/

/-- A table of the modelled relational store: ordered column names and rows
of cell values. -/
structure Table where
  cols : List String
  rows : List (List SqlValue)
deriving DecidableEq, Repr

/-- The state of one logical database: its tables, by name. -/
abbrev DbState := List (String × Table)

/-- Modelled from the spec: the statement forms exercised by the spec's
testable properties (CREATE TABLE, INSERT INTO ... VALUES, SELECT * FROM).
The engine itself is an external collaborator (spec section 1); any statement
outside these forms fails with the engine's native syntax error text. -/
inductive Stmt
  | createTable (name : String) (cols : List String)
  | insertValues (name : String) (vals : List SqlValue)
  | selectAll (name : String)
deriving DecidableEq, Repr

/-- The ASCII apostrophe character delimiting SQL string literals. -/
def quoteChar : Char := Char.ofNat 39

/-- Whether a character is statement whitespace. -/
def isSpaceChar (c : Char) : Bool :=
  c = ' ' || c = '\t' || c = '\n' || c = '\r'

/-- Leading and trailing whitespace stripped from a character list. -/
def trimChars (l : List Char) : List Char :=
  ((l.dropWhile isSpaceChar).reverse.dropWhile isSpaceChar).reverse

/-- A character list split on every occurrence of a separator character. -/
def splitOnChar (sep : Char) : List Char → List (List Char)
  | [] => [[]]
  | c :: rest =>
      let r := splitOnChar sep rest
      if c = sep then [] :: r
      else
        match r with
        | [] => [[c]]
        | h :: t => (c :: h) :: t

/-- A character list broken at the first occurrence of a separator sequence:
the part before it and the part after it, or `none` when it never occurs. -/
def breakOnSeq (pat : List Char) : List Char → Option (List Char × List Char)
  | [] => if pat = [] then some ([], []) else none
  | c :: rest =>
      if pat.isPrefixOf (c :: rest) then some ([], (c :: rest).drop pat.length)
      else
        match breakOnSeq pat rest with
        | some (pre, post) => some (c :: pre, post)
        | none => none

/-- The decimal value of a nonempty digit sequence. -/
def digitsToNat (l : List Char) : Option Nat :=
  l.foldl
    (fun acc c =>
      match acc with
      | none => none
      | some n => if c.isDigit then some (n * 10 + (c.toNat - 48)) else none)
    (some 0)

/-- An optionally negated decimal integer literal. -/
def parseIntChars (l : List Char) : Option Int :=
  match l with
  | '-' :: rest =>
      if rest = [] then none else (digitsToNat rest).map (fun n => -(n : Int))
  | _ => if l = [] then none else (digitsToNat l).map (fun n => (n : Int))

/-- A literal value in an INSERT statement: a quoted string or an integer. -/
def parseValue (s : List Char) : Option SqlValue :=
  match trimChars s with
  | [] => none
  | c :: rest =>
      if c = quoteChar then
        match rest.getLast? with
        | some q =>
            if q = quoteChar then some (.text ⟨rest.dropLast⟩) else none
        | none => none
      else (parseIntChars (c :: rest)).map SqlValue.int

/-- The first space-separated token of a statement, used in the engine's
native text for an unparsable statement. -/
def firstWord (s : List Char) : List Char :=
  ((splitOnChar ' ' s).headD s)

/-- The engine's native error text for an unparsable statement. -/
def nearErrorText (s : List Char) : String :=
  "near \"" ++ String.mk (firstWord s) ++ "\": " ++ "syntax error"

/-- Modelled from the spec: the external engine's statement recognizer for the
three statement forms named by the spec's round-trip and failure properties.
Anything outside these forms is unparsable. -/
def parseStmt (sql : String) : Option Stmt :=
  let s := trimChars sql.data
  if ("CREATE TABLE ".data).isPrefixOf s then
    match splitOnChar '(' (s.drop 13) with
    | [nameCs, colsCs] =>
        match colsCs.getLast? with
        | some ')' =>
            some (.createTable ⟨trimChars nameCs⟩
              ((splitOnChar ',' colsCs.dropLast).map
                (fun c => ⟨(splitOnChar ' ' (trimChars c)).headD []⟩)))
        | _ => none
    | _ => none
  else if ("INSERT INTO ".data).isPrefixOf s then
    match breakOnSeq (" VALUES ".data) (s.drop 12) with
    | some (nameCs, valsCs) =>
        match trimChars valsCs with
        | '(' :: inner =>
            match inner.getLast? with
            | some ')' =>
                let vals := (splitOnChar ',' inner.dropLast).map parseValue
                if vals.all Option.isSome then
                  some (.insertValues ⟨trimChars nameCs⟩
                    (vals.map (fun v => v.getD .null)))
                else none
            | _ => none
        | _ => none
    | none => none
  else if ("SELECT * FROM ".data).isPrefixOf s then
    some (.selectAll ⟨trimChars (s.drop 14)⟩)
  else none

/-- Modelled from the spec: one statement executed against a database state.
On success it yields the new state, the cursor's result description (column
names) and the raw result rows; on failure the engine's native error text.
DDL and DML produce an empty description and no rows. -/
def engineExec (db : DbState) (sql : String) :
    Except String (DbState × List String × List (List SqlValue)) :=
  match parseStmt sql with
  | none => .error (nearErrorText (trimChars sql.data))
  | some (.createTable n cols) =>
      if hasKey db n then .error ("table " ++ n ++ " already exists")
      else .ok (pyAssign db n ⟨cols, []⟩, [], [])
  | some (.insertValues n vals) =>
      match pyLookup db n with
      | none => .error ("no such table: " ++ n)
      | some t => .ok (pyAssign db n ⟨t.cols, t.rows ++ [vals]⟩, [], [])
  | some (.selectAll n) =>
      match pyLookup db n with
      | none => .error ("no such table: " ++ n)
      | some t => .ok (db, t.cols, t.rows)

/-- Decidable equality of `Except` outcomes, so concrete executions can be
checked by evaluation. -/
instance {ε α : Type} [DecidableEq ε] [DecidableEq α] : DecidableEq (Except ε α) :=
  fun x y =>
    match x, y with
    | .ok a, .ok b =>
        if h : a = b then .isTrue (by rw [h]) else .isFalse (by simp [h])
    | .ok _, .error _ => .isFalse (by simp)
    | .error _, .ok _ => .isFalse (by simp)
    | .error e, .error f =>
        if h : e = f then .isTrue (by rw [h]) else .isFalse (by simp [h])

/-! ## Connections and the SQL executor -/

/-- One open database connection: the state last committed to the backing
store, and the pending state as seen by statements on this connection. -/
structure Conn where
  committed : DbState
  pending : DbState
deriving DecidableEq, Repr

/-- Embedding of `s4_sql` (server.py lines 87-105): execute the statement on
the request connection; on success commit (the pending state becomes the
committed state) and fetch all rows through `dict_factory`, answering
`{sqlResponse: rows}`; on a database error answer `{error: text}` with the
engine's native error text and leave the connection unchanged (the commit is
never reached). -/
def s4_sql (conn : Conn) (sql : String) : Conn × PyDict :=
  match engineExec conn.pending sql with
  | .ok (db', desc, raws) =>
      (⟨db', db'⟩, [("sqlResponse", PyVal.rows (raws.map (dict_factory desc)))])
  | .error e => (conn, [("error", PyVal.str e)])

/-! ## The Flask request lifecycle -/

/-- The running instance's resolved configuration (Flask `app.config`). -/
structure AppConfig where
  SECRET_KEY : String
  DATABASE : String
deriving DecidableEq, Repr

/-- An HTTP method, as far as the gateway's routes distinguish them. -/
inductive Method
  | get
  | post
deriving DecidableEq, Repr

/-- One inbound HTTP request: its method, path, optional `s4-Secret-Key`
header, and the optional `sql` field of its JSON body. -/
structure Request where
  method : Method
  path : String
  secretHeader : Option String
  sqlField : Option String
deriving DecidableEq, Repr

/-- A response body: a JSON dictionary (Flask jsonifies dicts) or plain
text (Flask wraps strings). -/
inductive Body
  | json (d : PyDict)
  | text (s : String)
deriving DecidableEq, Repr

/-- An HTTP response: status code and body. -/
structure Response where
  status : Nat
  body : Body
deriving DecidableEq, Repr

/-- Observable resource events of one request: a database connection being
opened (sqlite3.connect in `validate`), a statement reaching the store
(cursor.execute in `s4_sql`), a connection being closed (db.close in
`teardown`). -/
inductive Event
  | connOpened (location : String)
  | sqlExecuted (sql : String)
  | connClosed (location : String)
deriving DecidableEq, Repr

/-- The persistent database files, by location.  The `:memory:` sentinel is
never stored here: an in-memory database lives only as long as its
connection. -/
abbrev FileStore := List (String × DbState)

/-- Embedding of `sqlite3.connect(location)`: a fresh connection per request.  A file
location opens (creating if absent) the persisted database; the `:memory:`
sentinel opens a brand-new empty transient database. -/
def connectTo (files : FileStore) (location : String) : Conn :=
  if location = ":memory:" then ⟨[], []⟩
  else
    let db := (pyLookup files location).getD []
    ⟨db, db⟩

/-- Embedding of `db.close()` at teardown: a file-backed connection leaves its committed
state in the file; an in-memory database is discarded. -/
def closeConn (files : FileStore) (location : String) (conn : Conn) :
    FileStore :=
  if location = ":memory:" then files
  else pyAssign files location conn.committed

/-- Truthiness of `request.json.get('sql', False)` (server.py line 143):
an absent field gives `False`, an empty string is falsy, any other string is
truthy. -/
def pyTruthy : Option String → Bool
  | none => false
  | some s => s ≠ ""

/-- The view functions of the two routes (server.py lines 129-145), run on an
authenticated request holding the request connection.  Yields the updated
connection, the response (Flask answers 200 for a dict or string return),
and the statements handed to the executor.  An unmatched route is Flask's
404. -/
def routeView (conn : Conn) (req : Request) :
    Conn × Response × List String :=
  if req.path = "/api/connect" ∧ req.method = Method.get then
    (conn, ⟨200, .text "Connection to s4 server established successfully!"⟩, [])
  else if req.path = "/api/sql" ∧ req.method = Method.post then
    if pyTruthy req.sqlField then
      let sqlText := req.sqlField.getD ""
      let out := s4_sql conn sqlText
      (out.1, ⟨200, .json out.2⟩, [sqlText])
    else
      (conn, ⟨200, .json [("error", PyVal.str "No SQL query provided.")]⟩, [])
  else (conn, ⟨404, .text "Not Found"⟩, [])

/-- Embedding of one full request through the Flask app (server.py lines
112-160): `validate` runs first and, on a header mismatch, returns the
generic 401 before any connection is opened; otherwise it opens the
request-scoped connection (`g.db`), the view runs, and `teardown` closes the
connection on every exit path.  Returns the response, the updated file
store, and the event trace of the request. -/
def handleRequest (cfg : AppConfig) (files : FileStore) (req : Request) :
    Response × FileStore × List Event :=
  if req.secretHeader ≠ some cfg.SECRET_KEY then
    (⟨401, .json [("error", PyVal.str "Invalid secret key.")]⟩, files, [])
  else
    let conn := connectTo files cfg.DATABASE
    let out := routeView conn req
    (out.2.1, closeConn files cfg.DATABASE out.1,
      Event.connOpened cfg.DATABASE ::
        (out.2.2.map Event.sqlExecuted ++ [Event.connClosed cfg.DATABASE]))

/-- A sequence of requests against the same running instance: responses in
order, the final file store, and the concatenated event trace. -/
def runRequests (cfg : AppConfig) (files : FileStore) :
    List Request → List Response × FileStore × List Event
  | [] => ([], files, [])
  | req :: rest =>
      let out := handleRequest cfg files req
      let tl := runRequests cfg out.2.1 rest
      (out.1 :: tl.1, tl.2.1, out.2.2 ++ tl.2.2)

/-- How many connections a trace opens. -/
def openCount : List Event → Nat
  | [] => 0
  | .connOpened _ :: rest => openCount rest + 1
  | _ :: rest => openCount rest

/-- How many connections a trace closes. -/
def closeCount : List Event → Nat
  | [] => 0
  | .connClosed _ :: rest => closeCount rest + 1
  | _ :: rest => closeCount rest

/-- How many statements a trace hands to the store. -/
def execCount : List Event → Nat
  | [] => 0
  | .sqlExecuted _ :: rest => execCount rest + 1
  | _ :: rest => execCount rest

/-! ## Configuration bootstrap and resolution -/

/-- The persisted configuration artifact `{SECRET_KEY, DATABASE}`. -/
structure ConfigDict where
  SECRET_KEY : String
  DATABASE : String
deriving DecidableEq, Repr

/-- Embedding of `os.path.join(a, b)` for the relative second components the code uses. -/
def pathJoin (a b : String) : String := a ++ "/" ++ b

/-- The URL-safe base64 alphabet. -/
def b64urlAlphabet : List Char :=
  "ABCDEFGHIJKLMNOPQRSTUVWXYZabcdefghijklmnopqrstuvwxyz0123456789-_".toList

/-- The alphabet character for a 6-bit group. -/
def b64Char (n : Nat) : Char := b64urlAlphabet.getD (n % 64) 'A'

/-- URL-safe base64 of a byte list, unpadded as `token_urlsafe` strips the
padding. -/
def base64urlEncode : List Nat → List Char
  | [] => []
  | [a] =>
      [b64Char (a / 4), b64Char ((a % 4) * 16)]
  | [a, b] =>
      [b64Char (a / 4), b64Char ((a % 4) * 16 + b / 16), b64Char ((b % 16) * 4)]
  | a :: b :: c :: rest =>
      b64Char (a / 4) :: b64Char ((a % 4) * 16 + b / 16) ::
        b64Char ((b % 16) * 4 + c / 64) :: b64Char (c % 64) ::
          base64urlEncode rest

/-- The bytes `secrets.token_urlsafe(n)` draws from the process's
cryptographically secure random source, with the source modelled as an
explicit byte stream. -/
def tokenBytes (draw : Nat → Nat) (n : Nat) : List Nat :=
  (List.range n).map (fun i => draw i % 256)

/-- Modelled from the spec: Python's `secrets.token_urlsafe(n)` (the
`secrets` module is outside the repository) — draw `n` bytes from a
cryptographically secure source and return their unpadded URL-safe base64
text. -/
def token_urlsafe (draw : Nat → Nat) (n : Nat) : String :=
  ⟨base64urlEncode (tokenBytes draw n)⟩

/-- One observable filesystem write operation of the config bootstrap. -/
inductive FsOp
  | openWrite (path : String)
  | writeAll (path : String) (content : String)
  | rename (src dst : String)
deriving DecidableEq, Repr

/-- The JSON text `json.dump` serializes for a config dictionary. -/
def jsonOfConfig (c : ConfigDict) : String :=
  "\x7b\n    \"SECRET_KEY\": \"" ++ c.SECRET_KEY ++
    "\",\n    \"DATABASE\": \"" ++ c.DATABASE ++ "\"\n\x7d"

/-- Embedding of `create_config_file` (server.py lines 15-30): generate a
secret with `secrets.token_urlsafe(32)`, point the database at
`instance_path/s4.db`, and write the serialized dictionary straight to
`instance_path/config.json` (`open(..., "w")` then `json.dump`).  The
random source is passed in explicitly; the filesystem operations performed
are returned as a trace. -/
def create_config_file (instance_path : String) (draw : Nat → Nat) :
    ConfigDict × List FsOp :=
  let config : ConfigDict :=
    { SECRET_KEY := token_urlsafe draw 32
      DATABASE := pathJoin instance_path "s4.db" }
  (config,
    [FsOp.openWrite (pathJoin instance_path "config.json"),
     FsOp.writeAll (pathJoin instance_path "config.json") (jsonOfConfig config)])

/-- Stated from the spec's words (for comparison with the source's write
trace): a persist is atomic when the target file is produced only by a
rename and is never opened or written directly, so a crash mid-write leaves
at most a temporary file. -/
def atomicWriteTempThenRename (target : String) (ops : List FsOp) : Bool :=
  (ops.any fun op => match op with
    | .rename _ dst => dst = target
    | _ => false) &&
  !(ops.any fun op => match op with
    | .openWrite p => p = target
    | .writeAll p _ => p = target
    | _ => false)

/-- Embedding of `read_config_file` (server.py lines 33-44): load
`instance_path/config.json` from the persisted configuration files; a
missing file (`FileNotFoundError`) yields `False`, modelled as `none`. -/
def read_config_file (configFiles : List (String × ConfigDict))
    (instance_path : String) : Option ConfigDict :=
  pyLookup configFiles (pathJoin instance_path "config.json")

/-- What the `--run` branch of `cli` resolves (server.py lines 206-217): with
no configuration on disk it echoes a warning and substitutes the degraded
default — secret `"s4"` and the `:memory:` database; `--in-memory`
additionally forces the `:memory:` database. -/
structure CliRunResult where
  config : ConfigDict
  warned : Bool
deriving DecidableEq, Repr

/-- Embedding of the configuration resolution in `cli --run` (server.py
lines 194, 206-217), taking the outcome of `read_config_file`. -/
def cliRunConfig (persisted : Option ConfigDict) (in_memory : Bool) :
    CliRunResult :=
  let (config, warned) :=
    match persisted with
    | none => ({ SECRET_KEY := "s4", DATABASE := ":memory:" : ConfigDict }, true)
    | some c => (c, false)
  let config := if in_memory then { config with DATABASE := ":memory:" } else config
  { config := config, warned := warned }

/-! ## Helper lemmas -/

theorem pyLookup_pyAssign_self {α : Type} (d : List (String × α)) (k : String)
    (v : α) : pyLookup (pyAssign d k v) k = some v := by
  induction d with
  | nil => simp [pyAssign, pyLookup]
  | cons hd tl ih =>
      obtain ⟨k', v'⟩ := hd
      by_cases h : k' = k
      · simp [pyAssign, pyLookup, h]
      · simp [pyAssign, pyLookup, h, ih]

theorem handleRequest_denied (cfg : AppConfig) (files : FileStore) (req : Request)
    (h : req.secretHeader ≠ some cfg.SECRET_KEY) :
    handleRequest cfg files req =
      (⟨401, Body.json [("error", PyVal.str "Invalid secret key.")]⟩, files, []) := by
  unfold handleRequest
  rw [if_pos h]

theorem handleRequest_granted (cfg : AppConfig) (files : FileStore) (req : Request)
    (h : req.secretHeader = some cfg.SECRET_KEY) :
    handleRequest cfg files req =
      ((routeView (connectTo files cfg.DATABASE) req).2.1,
       closeConn files cfg.DATABASE (routeView (connectTo files cfg.DATABASE) req).1,
       Event.connOpened cfg.DATABASE ::
         ((routeView (connectTo files cfg.DATABASE) req).2.2.map Event.sqlExecuted ++
           [Event.connClosed cfg.DATABASE])) := by
  unfold handleRequest
  rw [if_neg (by simp [h])]

theorem routeView_connect (conn : Conn) (req : Request)
    (hp : req.path = "/api/connect") (hm : req.method = Method.get) :
    routeView conn req =
      (conn, ⟨200, Body.text "Connection to s4 server established successfully!"⟩, []) := by
  simp [routeView, hp, hm]

theorem routeView_sql_falsy (conn : Conn) (req : Request)
    (hp : req.path = "/api/sql") (hm : req.method = Method.post)
    (ht : pyTruthy req.sqlField = false) :
    routeView conn req =
      (conn, ⟨200, Body.json [("error", PyVal.str "No SQL query provided.")]⟩, []) := by
  simp [routeView, hp, hm, ht]

theorem routeView_sql_truthy (conn : Conn) (req : Request)
    (hp : req.path = "/api/sql") (hm : req.method = Method.post)
    (ht : pyTruthy req.sqlField = true) :
    routeView conn req =
      ((s4_sql conn (req.sqlField.getD "")).1,
       ⟨200, Body.json (s4_sql conn (req.sqlField.getD "")).2⟩,
       [req.sqlField.getD ""]) := by
  simp [routeView, hp, hm, ht]

theorem openCount_append (l₁ l₂ : List Event) :
    openCount (l₁ ++ l₂) = openCount l₁ + openCount l₂ := by
  induction l₁ with
  | nil => simp [openCount]
  | cons e rest ih =>
      cases e with
      | connOpened l => simp [openCount, ih]; omega
      | sqlExecuted s => simp [openCount, ih]
      | connClosed l => simp [openCount, ih]

theorem closeCount_append (l₁ l₂ : List Event) :
    closeCount (l₁ ++ l₂) = closeCount l₁ + closeCount l₂ := by
  induction l₁ with
  | nil => simp [closeCount]
  | cons e rest ih =>
      cases e with
      | connOpened l => simp [closeCount, ih]
      | sqlExecuted s => simp [closeCount, ih]
      | connClosed l => simp [closeCount, ih]; omega

theorem openCount_map_sqlExecuted (sqls : List String) :
    openCount (sqls.map Event.sqlExecuted) = 0 := by
  induction sqls with
  | nil => rfl
  | cons s rest ih => simpa [openCount] using ih

theorem closeCount_map_sqlExecuted (sqls : List String) :
    closeCount (sqls.map Event.sqlExecuted) = 0 := by
  induction sqls with
  | nil => rfl
  | cons s rest ih => simpa [closeCount] using ih

theorem handleRequest_trace (cfg : AppConfig) (files : FileStore) (req : Request) :
    (handleRequest cfg files req).2.2 = [] ∨
    ∃ sqls : List String, (handleRequest cfg files req).2.2 =
      Event.connOpened cfg.DATABASE ::
        (sqls.map Event.sqlExecuted ++ [Event.connClosed cfg.DATABASE]) := by
  by_cases h : req.secretHeader = some cfg.SECRET_KEY
  · right
    exact ⟨(routeView (connectTo files cfg.DATABASE) req).2.2,
      by rw [handleRequest_granted cfg files req h]⟩
  · left
    rw [handleRequest_denied cfg files req h]

theorem handleRequest_balanced (cfg : AppConfig) (files : FileStore)
    (req : Request) :
    openCount (handleRequest cfg files req).2.2 =
      closeCount (handleRequest cfg files req).2.2 := by
  rcases handleRequest_trace cfg files req with h | ⟨sqls, h⟩
  · rw [h]
    rfl
  · rw [h]
    simp [openCount, closeCount, openCount_append, closeCount_append,
      openCount_map_sqlExecuted, closeCount_map_sqlExecuted]

theorem runRequests_balanced (cfg : AppConfig) (reqs : List Request) :
    ∀ files : FileStore,
      openCount (runRequests cfg files reqs).2.2 =
        closeCount (runRequests cfg files reqs).2.2 := by
  induction reqs with
  | nil => intro files; rfl
  | cons r rest ih =>
      intro files
      show openCount ((handleRequest cfg files r).2.2 ++ _) =
        closeCount ((handleRequest cfg files r).2.2 ++ _)
      rw [openCount_append, closeCount_append, handleRequest_balanced, ih]

theorem append_ne_empty_right (a b : String) (hb : b.length ≠ 0) :
    a ++ b ≠ "" := by
  intro h
  have hl := congrArg String.length h
  rw [String.length_append] at hl
  have h0 : ("" : String).length = 0 := rfl
  omega

theorem append_ne_empty_left (a b : String) (ha : a.length ≠ 0) :
    a ++ b ≠ "" := by
  intro h
  have hl := congrArg String.length h
  rw [String.length_append] at hl
  have h0 : ("" : String).length = 0 := rfl
  omega

theorem engineExec_error_ne_empty (db : DbState) (sql : String) (e : String)
    (h : engineExec db sql = Except.error e) : e ≠ "" := by
  unfold engineExec at h
  split at h
  · injection h with he
    rw [← he]
    unfold nearErrorText
    exact append_ne_empty_right _ _ (by decide)
  · split at h
    · injection h with he
      rw [← he]
      exact append_ne_empty_right _ _ (by decide)
    · simp at h
  · split at h
    · injection h with he
      rw [← he]
      exact append_ne_empty_left _ _ (by decide)
    · simp at h
  · split at h
    · injection h with he
      rw [← he]
      exact append_ne_empty_left _ _ (by decide)
    · simp at h

/-! ## C1: authentication failure short-circuits everything -/

/-- C1: a request whose `s4-Secret-Key` header is absent or differs from the
configured secret receives the generic 401 `{error: "Invalid secret key."}`
response — identical in both cases — with no database connection opened, no
SQL executed, and the persisted store untouched. -/
theorem C1_auth_denied_no_store_access (cfg : AppConfig) (files : FileStore)
    (req : Request) (h : req.secretHeader ≠ some cfg.SECRET_KEY) :
    handleRequest cfg files req =
      (⟨401, Body.json [("error", PyVal.str "Invalid secret key.")]⟩, files, []) :=
  handleRequest_denied cfg files req h

/-- Witness for C1 at a concrete missing-header write request. -/
theorem C1_auth_denied_no_store_access_witness :
    ((⟨Method.post, "/api/sql", none, some "DROP TABLE t"⟩ : Request).secretHeader ≠
        some (⟨"k", "/inst/s4.db"⟩ : AppConfig).SECRET_KEY) ∧
    handleRequest ⟨"k", "/inst/s4.db"⟩ []
        ⟨Method.post, "/api/sql", none, some "DROP TABLE t"⟩ =
      (⟨401, Body.json [("error", PyVal.str "Invalid secret key.")]⟩, [], []) :=
  ⟨by decide,
   C1_auth_denied_no_store_access ⟨"k", "/inst/s4.db"⟩ []
     ⟨Method.post, "/api/sql", none, some "DROP TABLE t"⟩ (by decide)⟩

/-! ## C2: empty or absent SQL -/

/-- C2 counterexample: for the authenticated empty-SQL request the gateway
does answer the validation-error body, but the claim that no database
connection is opened is false — the `before_request` hook has already
opened one before the `sql` field is inspected. -/
theorem C2_counterexample_connection_opened :
    (handleRequest ⟨"k", "/inst/s4.db"⟩ []
        ⟨Method.post, "/api/sql", some "k", some ""⟩).1.body =
      Body.json [("error", PyVal.str "No SQL query provided.")] ∧
    ¬ openCount (handleRequest ⟨"k", "/inst/s4.db"⟩ []
        ⟨Method.post, "/api/sql", some "k", some ""⟩).2.2 = 0 := by
  decide

/-- C2 (amended): for every authenticated POST to the SQL endpoint whose
body carries an empty or absent `sql` field, the gateway answers the
validation-error body `{error: "No SQL query provided."}`, no statement
reaches the store and the stored database contents are untouched — but a
connection is opened (and closed) by the authentication hook before the
field is inspected. -/
theorem C2_empty_sql_rejected (cfg : AppConfig) (files : FileStore)
    (req : Request) (hauth : req.secretHeader = some cfg.SECRET_KEY)
    (hp : req.path = "/api/sql") (hm : req.method = Method.post)
    (hsql : pyTruthy req.sqlField = false) :
    (handleRequest cfg files req).1 =
      ⟨200, Body.json [("error", PyVal.str "No SQL query provided.")]⟩ ∧
    (handleRequest cfg files req).2.2 =
      [Event.connOpened cfg.DATABASE, Event.connClosed cfg.DATABASE] ∧
    execCount (handleRequest cfg files req).2.2 = 0 ∧
    (pyLookup (handleRequest cfg files req).2.1 cfg.DATABASE).getD [] =
      (pyLookup files cfg.DATABASE).getD [] := by
  rw [handleRequest_granted cfg files req hauth,
      routeView_sql_falsy _ req hp hm hsql]
  refine ⟨rfl, rfl, rfl, ?_⟩
  by_cases hmem : cfg.DATABASE = ":memory:"
  · simp [closeConn, hmem]
  · simp [closeConn, connectTo, hmem, pyLookup_pyAssign_self]

/-- Witness for the amended C2 at a concrete authenticated empty-SQL
request. -/
theorem C2_empty_sql_rejected_witness :
    ((⟨Method.post, "/api/sql", some "k", some ""⟩ : Request).secretHeader =
        some (⟨"k", "/inst/s4.db"⟩ : AppConfig).SECRET_KEY ∧
      pyTruthy (⟨Method.post, "/api/sql", some "k", some ""⟩ : Request).sqlField =
        false) ∧
    ((handleRequest ⟨"k", "/inst/s4.db"⟩ []
        ⟨Method.post, "/api/sql", some "k", some ""⟩).1 =
      ⟨200, Body.json [("error", PyVal.str "No SQL query provided.")]⟩ ∧
    (handleRequest ⟨"k", "/inst/s4.db"⟩ []
        ⟨Method.post, "/api/sql", some "k", some ""⟩).2.2 =
      [Event.connOpened (⟨"k", "/inst/s4.db"⟩ : AppConfig).DATABASE,
       Event.connClosed (⟨"k", "/inst/s4.db"⟩ : AppConfig).DATABASE] ∧
    execCount (handleRequest ⟨"k", "/inst/s4.db"⟩ []
        ⟨Method.post, "/api/sql", some "k", some ""⟩).2.2 = 0 ∧
    (pyLookup (handleRequest ⟨"k", "/inst/s4.db"⟩ []
        ⟨Method.post, "/api/sql", some "k", some ""⟩).2.1
        (⟨"k", "/inst/s4.db"⟩ : AppConfig).DATABASE).getD [] =
      (pyLookup [] (⟨"k", "/inst/s4.db"⟩ : AppConfig).DATABASE).getD []) :=
  ⟨⟨rfl, by decide⟩,
   C2_empty_sql_rejected ⟨"k", "/inst/s4.db"⟩ []
     ⟨Method.post, "/api/sql", some "k", some ""⟩ rfl rfl rfl (by decide)⟩

/-! ## C3: the executor is total and exclusive -/

/-- C3: every execution outcome of `s4_sql` is represented as data — exactly
one of `{sqlResponse: rows}` on success or `{error: message}` on failure,
never both, the failure message being the store's native error text. -/
theorem C3_executor_outcome_is_data (conn : Conn) (sql : String) :
    ((∃ db' desc raws,
        engineExec conn.pending sql = Except.ok (db', desc, raws) ∧
        (s4_sql conn sql).2 =
          [("sqlResponse", PyVal.rows (raws.map (dict_factory desc)))]) ∨
     (∃ e, engineExec conn.pending sql = Except.error e ∧
        (s4_sql conn sql).2 = [("error", PyVal.str e)])) ∧
    ¬ (hasKey (s4_sql conn sql).2 "sqlResponse" = true ∧
       hasKey (s4_sql conn sql).2 "error" = true) := by
  unfold s4_sql
  cases h : engineExec conn.pending sql with
  | ok r =>
      obtain ⟨db', desc, raws⟩ := r
      exact ⟨.inl ⟨db', desc, raws, rfl, rfl⟩, by simp [hasKey, pyLookup]⟩
  | error e =>
      exact ⟨.inr ⟨e, rfl, rfl⟩, by simp [hasKey, pyLookup]⟩

/-! ## C4: response statuses -/

/-- C4 counterexample: malformed SQL on an authenticated request yields the
`{error: ...}` body, but with HTTP status 200 — not a server-error
status. -/
theorem C4_counterexample_error_status_200 :
    (handleRequest ⟨"k", "/inst/s4.db"⟩ []
        ⟨Method.post, "/api/sql", some "k", some "SELEC * FROM t"⟩).1.body =
      Body.json [("error", PyVal.str "near \"SELEC\": syntax error")] ∧
    (handleRequest ⟨"k", "/inst/s4.db"⟩ []
        ⟨Method.post, "/api/sql", some "k", some "SELEC * FROM t"⟩).1.status =
      200 ∧
    ¬ 500 ≤ (handleRequest ⟨"k", "/inst/s4.db"⟩ []
        ⟨Method.post, "/api/sql", some "k", some "SELEC * FROM t"⟩).1.status := by
  decide

/-- C4 (amended): on the SQL endpoint only the credential check produces a
non-success status — a bad credential gives 401 with the generic error
body; an authenticated request always gets status 200, with
`{sqlResponse: [...]}` on success and `{error: message}` (message
non-empty) for missing/empty SQL and for execution failure alike. -/
theorem C4_sql_statuses (cfg : AppConfig) (files : FileStore) (req : Request)
    (hp : req.path = "/api/sql") (hm : req.method = Method.post) :
    (req.secretHeader ≠ some cfg.SECRET_KEY →
      (handleRequest cfg files req).1 =
        ⟨401, Body.json [("error", PyVal.str "Invalid secret key.")]⟩) ∧
    (req.secretHeader = some cfg.SECRET_KEY →
      (handleRequest cfg files req).1.status = 200 ∧
      ((∃ rows, (handleRequest cfg files req).1.body =
          Body.json [("sqlResponse", PyVal.rows rows)]) ∨
       (∃ msg, msg ≠ "" ∧ (handleRequest cfg files req).1.body =
          Body.json [("error", PyVal.str msg)]))) := by
  constructor
  · intro h
    rw [handleRequest_denied cfg files req h]
  · intro h
    rw [handleRequest_granted cfg files req h]
    by_cases ht : pyTruthy req.sqlField = true
    · rw [routeView_sql_truthy _ req hp hm ht]
      refine ⟨rfl, ?_⟩
      unfold s4_sql
      cases he : engineExec (connectTo files cfg.DATABASE).pending
          (req.sqlField.getD "") with
      | ok r =>
          obtain ⟨db', desc, raws⟩ := r
          exact .inl ⟨raws.map (dict_factory desc), rfl⟩
      | error e =>
          exact .inr ⟨e, engineExec_error_ne_empty _ _ _ he, rfl⟩
    · rw [Bool.not_eq_true] at ht
      rw [routeView_sql_falsy _ req hp hm ht]
      exact ⟨rfl, .inr ⟨"No SQL query provided.", by decide, rfl⟩⟩

/-- Witness for the amended C4 at a concrete authenticated malformed-SQL
request. -/
theorem C4_sql_statuses_witness :
    ((⟨Method.post, "/api/sql", some "k", some "SELEC * FROM t"⟩ : Request).path =
        "/api/sql" ∧
      (⟨Method.post, "/api/sql", some "k", some "SELEC * FROM t"⟩ : Request).method =
        Method.post) ∧
    (((⟨Method.post, "/api/sql", some "k", some "SELEC * FROM t"⟩ : Request).secretHeader ≠
        some (⟨"k", "/inst/s4.db"⟩ : AppConfig).SECRET_KEY →
      (handleRequest ⟨"k", "/inst/s4.db"⟩ []
          ⟨Method.post, "/api/sql", some "k", some "SELEC * FROM t"⟩).1 =
        ⟨401, Body.json [("error", PyVal.str "Invalid secret key.")]⟩) ∧
    ((⟨Method.post, "/api/sql", some "k", some "SELEC * FROM t"⟩ : Request).secretHeader =
        some (⟨"k", "/inst/s4.db"⟩ : AppConfig).SECRET_KEY →
      (handleRequest ⟨"k", "/inst/s4.db"⟩ []
          ⟨Method.post, "/api/sql", some "k", some "SELEC * FROM t"⟩).1.status = 200 ∧
      ((∃ rows, (handleRequest ⟨"k", "/inst/s4.db"⟩ []
          ⟨Method.post, "/api/sql", some "k", some "SELEC * FROM t"⟩).1.body =
          Body.json [("sqlResponse", PyVal.rows rows)]) ∨
       (∃ msg, msg ≠ "" ∧ (handleRequest ⟨"k", "/inst/s4.db"⟩ []
          ⟨Method.post, "/api/sql", some "k", some "SELEC * FROM t"⟩).1.body =
          Body.json [("error", PyVal.str msg)])))) :=
  ⟨⟨rfl, rfl⟩,
   C4_sql_statuses ⟨"k", "/inst/s4.db"⟩ []
     ⟨Method.post, "/api/sql", some "k", some "SELEC * FROM t"⟩ rfl rfl⟩

/-! ## C5: connection release -/

/-- C5: a request's event trace either acquires no connection (denied) or
opens exactly one connection first, executes its statements, and closes
that same connection last — after all results are produced; and over any
sequence of requests every opened connection is closed, so no handle
remains open. -/
theorem C5_connection_release (cfg : AppConfig) (files : FileStore)
    (req : Request) (reqs : List Request) :
    ((handleRequest cfg files req).2.2 = [] ∨
      ∃ sqls : List String, (handleRequest cfg files req).2.2 =
        Event.connOpened cfg.DATABASE ::
          (sqls.map Event.sqlExecuted ++ [Event.connClosed cfg.DATABASE])) ∧
    openCount (runRequests cfg files reqs).2.2 =
      closeCount (runRequests cfg files reqs).2.2 :=
  ⟨handleRequest_trace cfg files req, runRequests_balanced cfg reqs files⟩

/-! ## C6: execute, then commit, then fetch all rows -/

/-- C6: on success the executor runs the statement verbatim, commits the
pending state (the connection's committed state becomes the executed state)
and returns all result rows — empty for statements producing none — wrapped
as `{sqlResponse: rows}`. -/
theorem C6_commit_before_fetch (conn : Conn) (sql : String) (db' : DbState)
    (desc : List String) (raws : List (List SqlValue))
    (h : engineExec conn.pending sql = Except.ok (db', desc, raws)) :
    s4_sql conn sql =
      (⟨db', db'⟩, [("sqlResponse", PyVal.rows (raws.map (dict_factory desc)))]) := by
  unfold s4_sql
  rw [h]

/-- Witness for C6 at a concrete DDL statement producing no rows. -/
theorem C6_commit_before_fetch_witness :
    engineExec (Conn.mk [] []).pending "CREATE TABLE t(id INTEGER, name TEXT)" =
      Except.ok ([("t", ⟨["id", "name"], []⟩)], [], []) ∧
    s4_sql ⟨[], []⟩ "CREATE TABLE t(id INTEGER, name TEXT)" =
      (⟨[("t", ⟨["id", "name"], []⟩)], [("t", ⟨["id", "name"], []⟩)]⟩,
       [("sqlResponse", PyVal.rows [])]) :=
  ⟨by decide,
   C6_commit_before_fetch ⟨[], []⟩ "CREATE TABLE t(id INTEGER, name TEXT)"
     [("t", ⟨["id", "name"], []⟩)] [] [] (by decide)⟩

/-! ## C7: the round trip -/

/-- C7: `CREATE TABLE t(id INTEGER, name TEXT)`, then
`INSERT INTO t VALUES (1,'a')`, then `SELECT * FROM t`, as three
authenticated calls against the same file-backed database, answer
`{sqlResponse: [{"id": 1, "name": "a"}]}` on the third call, the row keyed
by the column names of the statement's result description. -/
theorem C7_round_trip :
    (runRequests ⟨"k", "/inst/s4.db"⟩ []
      [⟨Method.post, "/api/sql", some "k", some "CREATE TABLE t(id INTEGER, name TEXT)"⟩,
       ⟨Method.post, "/api/sql", some "k", some "INSERT INTO t VALUES (1,'a')"⟩,
       ⟨Method.post, "/api/sql", some "k", some "SELECT * FROM t"⟩]).1 =
    [⟨200, Body.json [("sqlResponse", PyVal.rows [])]⟩,
     ⟨200, Body.json [("sqlResponse", PyVal.rows [])]⟩,
     ⟨200, Body.json [("sqlResponse",
        PyVal.rows [[("id", SqlValue.int 1), ("name", SqlValue.text "a")]])]⟩] := by
  decide

/-! ## C8: configuration generation -/

/-- C8 counterexample: the persist in `create_config_file` is not
write-temp-then-rename atomic — it opens and writes the final
`config.json` path directly and performs no rename. -/
theorem C8_counterexample_not_atomic :
    atomicWriteTempThenRename (pathJoin "/inst" "config.json")
      (create_config_file "/inst" (fun _ => 0)).2 = false := by
  decide

/-- C8 (amended): `generate` creates the credential from the secure random
source with exactly 32 bytes of entropy before URL-safe encoding, and a
database location under the instance's storage area — but it persists them
by opening and writing the final config file directly, with no temp file
and no rename, so the persist is not atomic. -/
theorem C8_generate_entropy_direct_write (instance_path : String)
    (draw : Nat → Nat) :
    (create_config_file instance_path draw).1.SECRET_KEY =
      String.mk (base64urlEncode (tokenBytes draw 32)) ∧
    (tokenBytes draw 32).length = 32 ∧
    (create_config_file instance_path draw).1.DATABASE =
      pathJoin instance_path "s4.db" ∧
    (create_config_file instance_path draw).2 =
      [FsOp.openWrite (pathJoin instance_path "config.json"),
       FsOp.writeAll (pathJoin instance_path "config.json")
         (jsonOfConfig (create_config_file instance_path draw).1)] ∧
    atomicWriteTempThenRename (pathJoin instance_path "config.json")
      (create_config_file instance_path draw).2 = false := by
  refine ⟨rfl, by simp [tokenBytes], rfl, rfl, ?_⟩
  simp [atomicWriteTempThenRename, create_config_file]

/-! ## C9: degraded mode -/

/-- C9: with no persisted config file, resolution returns the
not-configured marker, and an instance that runs anyway runs with exactly
the fixed default credential `"s4"` and the transient `:memory:` database,
with the warning flag raised — and the `:memory:` location never persists:
every connection to it starts empty and closing it writes nothing back. -/
theorem C9_degraded_mode (configFiles : List (String × ConfigDict))
    (instance_path : String) (in_memory : Bool)
    (h : read_config_file configFiles instance_path = none) :
    (cliRunConfig (read_config_file configFiles instance_path) in_memory).config =
      ⟨"s4", ":memory:"⟩ ∧
    (cliRunConfig (read_config_file configFiles instance_path) in_memory).warned =
      true ∧
    (∀ files : FileStore, connectTo files ":memory:" = ⟨[], []⟩) ∧
    (∀ (files : FileStore) (conn : Conn), closeConn files ":memory:" conn = files) := by
  rw [h]
  refine ⟨?_, ?_, ?_, ?_⟩
  · cases in_memory <;> rfl
  · cases in_memory <;> rfl
  · intro files; rfl
  · intro files conn; rfl

/-- Witness for C9 on an empty filesystem. -/
theorem C9_degraded_mode_witness :
    read_config_file [] "/inst" = none ∧
    ((cliRunConfig (read_config_file [] "/inst") false).config =
      ⟨"s4", ":memory:"⟩ ∧
    (cliRunConfig (read_config_file [] "/inst") false).warned = true ∧
    (∀ files : FileStore, connectTo files ":memory:" = ⟨[], []⟩) ∧
    (∀ (files : FileStore) (conn : Conn), closeConn files ":memory:" conn = files)) :=
  ⟨rfl, C9_degraded_mode [] "/inst" false rfl⟩

/-! ## C10: the liveness endpoint -/

/-- C10: GET `/api/connect` requires the credential — a missing or
mismatching `s4-Secret-Key` header receives the generic 401 auth-failure
response, and the valid credential receives the plain-text success body. -/
theorem C10_connect_requires_auth (cfg : AppConfig) (files : FileStore)
    (req : Request) (hp : req.path = "/api/connect")
    (hm : req.method = Method.get) :
    (req.secretHeader ≠ some cfg.SECRET_KEY →
      (handleRequest cfg files req).1 =
        ⟨401, Body.json [("error", PyVal.str "Invalid secret key.")]⟩) ∧
    (req.secretHeader = some cfg.SECRET_KEY →
      (handleRequest cfg files req).1 =
        ⟨200, Body.text "Connection to s4 server established successfully!"⟩) := by
  constructor
  · intro h
    rw [handleRequest_denied cfg files req h]
  · intro h
    rw [handleRequest_granted cfg files req h, routeView_connect _ req hp hm]

/-- Witness for C10 at a concrete valid-credential request. -/
theorem C10_connect_requires_auth_witness :
    ((⟨Method.get, "/api/connect", some "k", none⟩ : Request).path =
        "/api/connect" ∧
      (⟨Method.get, "/api/connect", some "k", none⟩ : Request).method =
        Method.get) ∧
    (((⟨Method.get, "/api/connect", some "k", none⟩ : Request).secretHeader ≠
        some (⟨"k", ":memory:"⟩ : AppConfig).SECRET_KEY →
      (handleRequest ⟨"k", ":memory:"⟩ []
          ⟨Method.get, "/api/connect", some "k", none⟩).1 =
        ⟨401, Body.json [("error", PyVal.str "Invalid secret key.")]⟩) ∧
    ((⟨Method.get, "/api/connect", some "k", none⟩ : Request).secretHeader =
        some (⟨"k", ":memory:"⟩ : AppConfig).SECRET_KEY →
      (handleRequest ⟨"k", ":memory:"⟩ []
          ⟨Method.get, "/api/connect", some "k", none⟩).1 =
        ⟨200, Body.text "Connection to s4 server established successfully!"⟩)) :=
  ⟨⟨rfl, rfl⟩,
   C10_connect_requires_auth ⟨"k", ":memory:"⟩ []
     ⟨Method.get, "/api/connect", some "k", none⟩ rfl rfl⟩

end S4
